import Mathlib

/-!
The gdbfrontend sources: value structs of `debugmanager.h` and the start-debug dialog

Shallow embedding of

* `src/debugmanager.h`: the structs `gdb::Variable`, `gdb::Frame`,
  `gdb::Breakpoint`, `gdb::Thread` with their default member initialisers and
  `isValid()` members, and `DebugManager::ResponseAction_t` with the default
  argument of `commandAndResponse`;
* `src/dialogstartdebug.cpp`: `processObject`, the template loading loop of the
  constructor, the `detectGdbFor` lambda and the click handler of
  `buttonChoseGdbExecutable`.

Conventions. `QString` is `String`, a default constructed `QString` is `""`.
`int` is `Int` (no arithmetic that could overflow is performed by the embedded
code apart from `count() - 1` on a list length), `quint64` is `Nat`.
A member without a default member initialiser has an indeterminate value after
default initialisation; such values are explicit parameters of `defaultInit`.
Qt classes (`QComboBox`, `QJsonValue`, `QVariant`, `QFileInfo`) follow their
documented behaviour; the regular expression engine and the file system are
fields of `Env`.

The bodies of `parseMap`, `commandAndResponse` and `processLine` are not part of
the header. Definitions standing for them say so in their doc comment and follow
the design document instead.
-/

/-! # Definitions -/

namespace gdb

/-- Qt `QString::isEmpty()`: the string has no characters. -/
def isEmpty (s : String) : Bool := s.data.isEmpty

/-- Source `struct Variable { QString name; QString type; QString value; }`. -/
structure Variable where
  name : String
  type : String
  value : String
  deriving Repr, DecidableEq

/-- Source `bool isValid() const { return !name.isEmpty() && !value.isEmpty(); }`. -/
def Variable.isValid (v : Variable) : Bool := !isEmpty v.name && !isEmpty v.value

/-- Source `struct Frame`; `params` is the `QHash<QString, QString>` as a key/value list. -/
structure Frame where
  level : Int
  func : String
  addr : Nat
  params : List (String × String)
  file : String
  fullpath : String
  line : Int
  deriving Repr, DecidableEq

/-- Source `bool isValid() const { return level != -1; }`. -/
def Frame.isValid (f : Frame) : Bool := f.level != -1

/-- Source `enum Disp_t { keep, del }`. -/
inductive Disp_t where
  | keep
  | del
  deriving Repr, DecidableEq

/-- Source `struct Breakpoint`. -/
structure Breakpoint where
  number : Int
  type : String
  disp : Disp_t
  enable : Bool
  addr : Nat
  func : String
  file : String
  fullname : String
  line : Int
  threadGroups : List String
  times : Int
  originalLocation : String
  deriving Repr, DecidableEq

/-- Source `bool isValid() const { return number != -1; }`. -/
def Breakpoint.isValid (b : Breakpoint) : Bool := b.number != -1

/-- Source `enum State_t { Unknown, Stopped, Running }`. -/
inductive State_t where
  | Unknown
  | Stopped
  | Running
  deriving Repr, DecidableEq

/-- Source `struct Thread`. -/
structure Thread where
  id : Int
  targetId : String
  details : String
  name : String
  state : State_t
  frame : Frame
  core : Int
  deriving Repr, DecidableEq

end gdb

/-! ## Qt value types used by `dialogstartdebug.cpp` -/

/-- A `QJsonValue`. Numbers are finite doubles, kept as the rational they denote.
`undefined` is the value returned for a missing key. The same type stands for the
`QVariant` image produced by `toVariantMap()` (which keeps keys and shape), with
`undefined` as the invalid `QVariant`. -/
inductive QJsonValue where
  | null
  | bool (b : Bool)
  | double (d : Rat)
  | string (s : String)
  | array (xs : List QJsonValue)
  | object (members : List (String × QJsonValue))
  | undefined

/-- A `QJsonObject` (and its `QVariantMap` image): key/value members. -/
abbrev QJsonObject := List (String × QJsonValue)

/-- Qt `QJsonObject::value(key)` / `QVariantMap::value(key)`: the member, or
undefined / invalid when there is none. -/
def QJsonObject.value (j : QJsonObject) (key : String) : QJsonValue :=
  match j.lookup key with
  | some v => v
  | none => QJsonValue.undefined

/-- Qt `QJsonValue::toString()`: the string, or a null `QString` for any other type. -/
def QJsonValue.toString : QJsonValue → String
  | .string s => s
  | _ => ""

/-- Qt `QJsonValue::toBool(defaultValue)`: the boolean, or `defaultValue` for any other type. -/
def QJsonValue.toBool (v : QJsonValue) (defaultValue : Bool) : Bool :=
  match v with
  | .bool b => b
  | _ => defaultValue

/-- Qt `QJsonValue::toObject()`: the object, or an empty object for any other type. -/
def QJsonValue.toObject : QJsonValue → QJsonObject
  | .object members => members
  | _ => []

/-- Qt `QVariant::toMap()`: the map, or an empty map when the variant holds none. -/
def QJsonValue.toMap : QJsonValue → QJsonObject
  | .object members => members
  | _ => []

/-- What the embedded code obtains from outside the program.

* `hasMatch pattern subject`: `QRegularExpression{pattern, MultilineOption}.match(subject).hasMatch()`;
* `numberToString`: the text `QVariant::toString()` gives for a double;
* `gdbinitPath exec`: `QFileInfo{exec}.absoluteDir().filePath(".gdbinit")`;
* `fileExists path`, `absoluteFilePath path`, `readFile path` (none when
  `QFile::open` fails): the file system as seen by `loadInitScript`. -/
structure Env where
  hasMatch : String → String → Bool
  numberToString : Rat → String
  gdbinitPath : String → String
  fileExists : String → Bool
  absoluteFilePath : String → String
  readFile : String → Option String

/-- Qt `QVariant::toString()` on the image of a JSON value: strings, booleans and
numbers convert, everything else gives an empty string. -/
def QJsonValue.variantToString (env : Env) : QJsonValue → String
  | .string s => s
  | .bool b => if b then "true" else "false"
  | .double d => env.numberToString d
  | _ => ""

/-- Qt `QVariant::toStringList()` on the image of a JSON value. -/
def QJsonValue.toStringList (env : Env) : QJsonValue → List String
  | .array xs => xs.map (QJsonValue.variantToString env)
  | .string s => [s]
  | _ => []

/-- A parsed `QJsonDocument`: an object, an array, or neither (null or invalid). -/
inductive QJsonDocument where
  | object (o : QJsonObject)
  | array (a : List QJsonValue)
  | null

/-- Qt `QFileInfo::fileName()`: what follows the last `/`. -/
def fileName (path : String) : String :=
  String.mk (path.data.reverse.takeWhile (fun c => c != '/')).reverse

/-- Qt `QFileInfo::baseName()`: the file name up to, not including, its first `.`. -/
def baseName (path : String) : String :=
  String.mk ((fileName path).data.takeWhile (fun c => c != '.'))

/-! ## `QComboBox` -/

/-- A `QComboBox`: its items (text and user data) and its current index, `-1`
when there is no current item. -/
structure QComboBox where
  items : List (String × QJsonValue)
  currentIndex : Int

namespace QComboBox

/-- An empty combo box. -/
def empty : QComboBox := { items := [], currentIndex := -1 }

/-- Qt `count()`. -/
def count (b : QComboBox) : Int := b.items.length

/-- Qt `itemText(index)`: an empty string for an index out of range. -/
def itemText (b : QComboBox) (index : Int) : String :=
  if 0 ≤ index then
    match b.items.get? index.toNat with
    | some it => it.1
    | none => ""
  else ""

/-- Qt `itemData(index)`: an invalid variant for an index out of range. -/
def itemData (b : QComboBox) (index : Int) : QJsonValue :=
  if 0 ≤ index then
    match b.items.get? index.toNat with
    | some it => it.2
    | none => QJsonValue.undefined
  else QJsonValue.undefined

/-- Qt `currentText()`: the text of the current item, empty when there is none. -/
def currentText (b : QComboBox) : String := b.itemText b.currentIndex

/-- Qt `setCurrentIndex(index)`: an index out of range clears the selection. -/
def setCurrentIndex (b : QComboBox) (index : Int) : QComboBox :=
  if 0 ≤ index ∧ index < b.count then { b with currentIndex := index }
  else { b with currentIndex := -1 }

/-- Qt `findText(text)` with the default flags (exact, case sensitive): the index of
the first item with that text, `-1` when there is none. -/
def findText (b : QComboBox) (text : String) : Int :=
  match b.items.findIdx? (fun it => it.1 == text) with
  | some i => i
  | none => -1

/-- Qt `insertItem(index, text, userData)`: the item goes to position `index`,
clamped to `0 .. count()` (`maxCount` is left at its default, `INT_MAX`). The first item put into an empty box becomes the
current one; otherwise the current item stays the same item, so its index moves
up by one when the new item lands at or before it. -/
def insertItem (b : QComboBox) (index : Int) (text : String) (userData : QJsonValue) :
    QComboBox :=
  let pos : Nat := min index.toNat b.items.length
  { items := b.items.take pos ++ (text, userData) :: b.items.drop pos,
    currentIndex :=
      if b.items.length = 0 then 0
      else if 0 ≤ b.currentIndex ∧ (pos : Int) ≤ b.currentIndex then b.currentIndex + 1
      else b.currentIndex }

/-- Qt `addItem(text, userData)` is `insertItem(count(), text, userData)`. -/
def addItem (b : QComboBox) (text : String) (userData : QJsonValue) : QComboBox :=
  b.insertItem b.count text userData

end QComboBox

/-! ## `DialogStartDebug` -/

/-- The widgets of `Ui::DialogStartDebug` the embedded code touches, and the
member `m_initScriptName`. -/
structure Ui where
  comboGdbInitTemplates : QComboBox
  editorGdbExecFile : QComboBox
  editorInitScript : String
  editorExecFile : String
  m_initScriptName : String

/-- Source `static bool processObject(QComboBox *b, const QJsonObject& j)`: returns the
combo box after `addItem` and the function result. -/
def processObject (b : QComboBox) (j : QJsonObject) : QComboBox × Bool :=
  let name := (j.value "name").toString
  let b := b.addItem name (QJsonValue.object j)
  if (j.value "default").toBool false then
    (b, true)
  else
    (b, false)

/-- The body run for one object inside the template loop:
`if (processObject(combo, o)) defaultIdx = combo->count() - 1;`. -/
def loadObject (st : QComboBox × Int) (j : QJsonObject) : QComboBox × Int :=
  let r := processObject st.1 j
  if r.2 then (r.1, r.1.count - 1) else (r.1, st.2)

/-- The body of `for (const auto& e: templateList)`. A file is `none` when
`f.open(QFile::ReadOnly)` fails, else the document `QJsonDocument::fromJson` gives. -/
def loadFile (st : QComboBox × Int) (file : Option QJsonDocument) : QComboBox × Int :=
  match file with
  | none => st
  | some doc =>
    match doc with
    | .object o => loadObject st o
    | .array a => a.foldl (fun st g => loadObject st g.toObject) st
    | .null => st

/-- The template loading loop of the constructor, started with `defaultIdx = 0`:
returns the template combo box and `defaultIdx`. -/
def loadTemplates (comboGdbInitTemplates : QComboBox)
    (templateList : List (Option QJsonDocument)) : QComboBox × Int :=
  templateList.foldl loadFile (comboGdbInitTemplates, 0)

/-- The `for` loop of `detectGdbFor`, from counter value `i`: the first item whose
base name matches becomes current and the loop breaks. -/
def detectLoop (env : Env) (pattern : String) (b : QComboBox) (i : Nat) : QComboBox :=
  if (i : Int) < b.count then
    let name := baseName (b.itemText i)
    if env.hasMatch pattern name then
      b.setCurrentIndex i
    else
      detectLoop env pattern b (i + 1)
  else b
termination_by b.items.length - i
decreasing_by
  simp only [QComboBox.count] at *
  omega

/-- The pattern `detectGdbFor(idx)` compiles:
`itemData(idx).toMap().value("preferredGdb").toString()`. -/
def preferredGdbPattern (env : Env) (ui : Ui) (idx : Int) : String :=
  (((ui.comboGdbInitTemplates.itemData idx).toMap).value "preferredGdb").variantToString env

/-- The lambda `detectGdbFor`. -/
def detectGdbFor (env : Env) (ui : Ui) (idx : Int) : Ui :=
  let j := (ui.comboGdbInitTemplates.itemData idx).toMap
  let pattern := (j.value "preferredGdb").variantToString env
  let script := "\n".intercalate ((j.value "commands").toStringList env)
  { ui with
    editorInitScript := script
    editorGdbExecFile := detectLoop env pattern (ui.editorGdbExecFile.setCurrentIndex (-1)) 0 }

/-- Source `DialogStartDebug::loadInitScript()` with its default argument, an empty path. -/
def loadInitScript (env : Env) (ui : Ui) : Ui :=
  if gdb.isEmpty ui.editorExecFile then ui
  else
    let initScript := env.gdbinitPath ui.editorExecFile
    if env.fileExists initScript then
      let ui := { ui with m_initScriptName := env.absoluteFilePath initScript }
      match env.readFile ui.m_initScriptName with
      | some text => { ui with editorInitScript := text }
      | none => ui
    else ui

/-- The handler connected to `buttonChoseGdbExecutable`'s `clicked`; `name` is what
`QFileDialog::getOpenFileName` returned (empty when the dialog was cancelled).
`!idx` on an `int` is `idx == 0`. -/
def choseGdbExecutableClicked (env : Env) (ui : Ui) (name : String) : Ui :=
  if !gdb.isEmpty name then
    let idx := ui.editorGdbExecFile.findText name
    let st : QComboBox × Int :=
      if idx == 0 then
        (ui.editorGdbExecFile.insertItem 0 name QJsonValue.undefined, 0)
      else
        (ui.editorGdbExecFile, idx)
    let ui := { ui with editorGdbExecFile := st.1.setCurrentIndex st.2 }
    loadInitScript env ui
  else ui

/-! ## Inputs for evaluations, and the specification side of template loading -/

/-- The dialog state used in the evaluations below: a gdb combo box listing
`items` with current index `cur`, nothing else filled in. -/
def sampleUi (items : List String) (cur : Int) : Ui :=
  { comboGdbInitTemplates := QComboBox.empty
    editorGdbExecFile :=
      { items := items.map (fun t => (t, QJsonValue.undefined)), currentIndex := cur }
    editorInitScript := ""
    editorExecFile := ""
    m_initScriptName := "" }

/-- An environment with literal pattern matching and no files. -/
def sampleEnv : Env :=
  { hasMatch := fun pattern subject => pattern == subject
    numberToString := fun _ => ""
    gdbinitPath := fun e => e
    fileExists := fun _ => false
    absoluteFilePath := fun e => e
    readFile := fun _ => none }

/-- Specification side: the JSON objects one template file contributes, in
order: the top-level object, or every element of the top-level array (read through `toObject()`). -/
def objectsOf (file : Option QJsonDocument) : List QJsonObject :=
  match file with
  | some (QJsonDocument.object o) => [o]
  | some (QJsonDocument.array a) => a.map QJsonValue.toObject
  | _ => []

/-- Specification side: the JSON objects of a list of template files, in loading
order. -/
def allObjects (templateList : List (Option QJsonDocument)) : List QJsonObject :=
  (templateList.map objectsOf).flatten

/-- Specification side: the combo item that belongs to an object, its `"name"` as
text and the object as user data. -/
def itemOf (j : QJsonObject) : String × QJsonValue :=
  ((j.value "name").toString, QJsonValue.object j)

/-- Four template files for the evaluations: an object `A`; a file that cannot be
opened; an array holding the default object `B`, a string, and an object `C` whose
`"default"` is the string `"true"`; and a document that is neither. -/
def sampleTemplates : List (Option QJsonDocument) :=
  [ some (QJsonDocument.object [("name", QJsonValue.string "A")]),
    none,
    some (QJsonDocument.array
      [ QJsonValue.object [("name", QJsonValue.string "B"), ("default", QJsonValue.bool true)],
        QJsonValue.string "x",
        QJsonValue.object [("name", QJsonValue.string "C"), ("default", QJsonValue.string "true")] ]),
    some QJsonDocument.null ]

/-! ## `DebugManager`: tracked commands -/

namespace DebugManager

/-- Source `enum class ResponseAction_t { Permanent, Temporal }`. -/
inductive ResponseAction_t where
  | Permanent
  | Temporal
  deriving Repr, DecidableEq

/-- Modelled from the spec: the pending-command entry `{token, handler, retention}`
of the correlator (§3 "Pending Command"); the table lives in `DebugManager::Priv_t`,
which the header only declares. A handler (`ResponseHandler_t`) is represented by
an identifier; its invocations are recorded in `Correlator.invoked`. -/
structure PendingCommand where
  token : Int
  handler : Nat
  retention : ResponseAction_t
  deriving Repr, DecidableEq

/-- Modelled from the spec: the correlator state behind `DebugManager` (the
private `Priv_t` is not in the header): the token counter, the token-indexed
pending table, the command lines written to the debugger, and the log of handler
invocations `(handler, payload)` in the order they happened. -/
structure Correlator (V : Type) where
  nextToken : Int
  pending : List PendingCommand
  written : List String
  invoked : List (Nat × V)

/-- Modelled from the spec: lookup of the pending entry of a token. -/
def Correlator.lookup {V : Type} (c : Correlator V) (token : Int) : Option PendingCommand :=
  c.pending.find? (fun e => e.token == token)

/-- Modelled from the spec: the body of `DebugManager::commandAndResponse`, which
the header only declares (§4.4 `sendTracked`): allocate the next token, register
`{token, handler, retention}` under it, write `<token>commandText` newline
terminated. `action = none` is a call without the third argument, for which the
header's default argument `ResponseAction_t::Temporal` is used. -/
def commandAndResponse {V : Type} (c : Correlator V) (cmd : String) (handler : Nat)
    (action : Option ResponseAction_t) : Correlator V :=
  let token := c.nextToken
  { nextToken := token + 1
    pending :=
      { token := token, handler := handler, retention := action.getD ResponseAction_t.Temporal }
        :: c.pending.filter (fun e => e.token != token)
    written := c.written ++ [toString token ++ cmd ++ "\n"]
    invoked := c.invoked }

/-- Modelled from the spec: what `processLine` (declared, not defined in the
header) does with a `Result` record carrying `token` (§4.4): look the pending
entry up; if there is one, invoke its handler with the payload, and remove the
entry when its retention is `Temporal`. -/
def onResult {V : Type} (c : Correlator V) (token : Int) (payload : V) : Correlator V :=
  match c.lookup token with
  | none => c
  | some e =>
    { c with
      pending :=
        match e.retention with
        | ResponseAction_t.Temporal => c.pending.filter (fun x => x.token != token)
        | ResponseAction_t.Permanent => c.pending
      invoked := c.invoked ++ [(e.handler, payload)] }

/-- A correlator with nothing pending whose next token is `7`. -/
def sampleCorrelator : Correlator String :=
  { nextToken := 7, pending := [], written := [], invoked := [] }

end DebugManager

namespace gdb

/-! ## Typed projections (`parseMap`) -/

/-- Modelled from the spec: the `Value` variant of §3 (string, ordered list,
key/value tuple), the decoding target of every MI payload. The parser that
produces it is not in the header. -/
inductive Value where
  | string (s : String)
  | list (xs : List Value)
  | tuple (fields : List (String × Value))

/-- Modelled from the spec: the field of a Tuple under a key; of a repeated key
the last occurrence is kept (§3). `none` when the field is missing. -/
def field (data : List (String × Value)) (key : String) : Option Value :=
  data.reverse.lookup key

/-- Modelled from the spec: the conversions of a field that is present, and the
values taken by missing fields of the types for which §4.1 names no default
(addresses, the two enumerations, lists, maps). The spec fixes none of these. -/
structure Conv where
  toInt : Value → Int
  toBool : Value → Bool
  toAddr : Option Value → Nat
  toDisp : Option Value → Disp_t
  toState : Option Value → State_t
  toStringList : Option Value → List String
  toParams : Option Value → List (String × String)

/-- Modelled from the spec: a string field; the empty string when missing (§4.1). -/
def stringField (data : List (String × Value)) (key : String) : String :=
  match field data key with
  | some (Value.string s) => s
  | _ => ""

/-- Modelled from the spec: an integer field; `-1` when missing (§4.1). -/
def intField (cv : Conv) (data : List (String × Value)) (key : String) : Int :=
  match field data key with
  | some v => cv.toInt v
  | none => -1

/-- Modelled from the spec: a boolean field; `false` when missing (§4.1). -/
def boolField (cv : Conv) (data : List (String × Value)) (key : String) : Bool :=
  match field data key with
  | some v => cv.toBool v
  | none => false

/-- Modelled from the spec: the body of `Variable::parseMap`, declared in the
header only. Keys are the GDB/MI names of the members. -/
def Variable.parseMap (data : List (String × Value)) : Variable :=
  { name := stringField data "name"
    type := stringField data "type"
    value := stringField data "value" }

/-- Modelled from the spec: the body of `Frame::parseMap`, declared in the header
only. A missing `level` leaves the sentinel `-1` of the header's initialiser. -/
def Frame.parseMap (cv : Conv) (data : List (String × Value)) : Frame :=
  { level := intField cv data "level"
    func := stringField data "func"
    addr := cv.toAddr (field data "addr")
    params := cv.toParams (field data "args")
    file := stringField data "file"
    fullpath := stringField data "fullname"
    line := intField cv data "line" }

/-- Modelled from the spec: the body of `Breakpoint::parseMap`, declared in the
header only. A missing `number` leaves the sentinel `-1` of the header's initialiser. -/
def Breakpoint.parseMap (cv : Conv) (data : List (String × Value)) : Breakpoint :=
  { number := intField cv data "number"
    type := stringField data "type"
    disp := cv.toDisp (field data "disp")
    enable := boolField cv data "enabled"
    addr := cv.toAddr (field data "addr")
    func := stringField data "func"
    file := stringField data "file"
    fullname := stringField data "fullname"
    line := intField cv data "line"
    threadGroups := cv.toStringList (field data "thread-groups")
    times := intField cv data "times"
    originalLocation := stringField data "original-location" }

/-- Modelled from the spec: the body of `Thread::parseMap`, declared in the header
only. The embedded frame is the projection of the `frame` tuple, of an empty tuple
when that field is missing or no tuple. -/
def Thread.parseMap (cv : Conv) (data : List (String × Value)) : Thread :=
  { id := intField cv data "id"
    targetId := stringField data "target-id"
    details := stringField data "details"
    name := stringField data "name"
    state := cv.toState (field data "state")
    frame :=
      match field data "frame" with
      | some (Value.tuple fields) => Frame.parseMap cv fields
      | _ => Frame.parseMap cv []
    core := intField cv data "core" }

/-- Conversions used in the evaluations: decimal integers, `"y"` for true. -/
def sampleConv : Conv :=
  { toInt := fun v =>
      match v with
      | Value.string s => s.toInt?.getD (-1)
      | _ => -1
    toBool := fun v =>
      match v with
      | Value.string s => s == "y"
      | _ => false
    toAddr := fun _ => 0
    toDisp := fun _ => Disp_t.keep
    toState := fun _ => State_t.Unknown
    toStringList := fun _ => []
    toParams := fun _ => [] }

/-- A tuple holding only `number="1"` and `func="main"`. -/
def sampleTuple : List (String × Value) :=
  [("number", Value.string "1"), ("func", Value.string "main")]

end gdb

/-! # Theorems -/

namespace gdb

theorem isEmpty_eq_true_iff (s : String) : isEmpty s = true ↔ s = "" := by
  unfold isEmpty
  rw [List.isEmpty_iff]
  constructor
  · intro h
    exact String.ext h
  · intro h
    rw [h]

theorem isEmpty_eq_false_iff (s : String) : isEmpty s = false ↔ s ≠ "" := by
  rw [Ne, ← isEmpty_eq_true_iff, Bool.not_eq_true]

/-- C1: a `Breakpoint` is valid exactly when its `number` differs from `-1`,
whatever the other eleven members hold. -/
theorem breakpoint_isValid_iff (number : Int) (type : String) (disp : Disp_t) (enable : Bool)
    (addr : Nat) (func file fullname : String) (line : Int) (threadGroups : List String)
    (times : Int) (originalLocation : String) :
    Breakpoint.isValid
        { number := number, type := type, disp := disp, enable := enable, addr := addr,
          func := func, file := file, fullname := fullname, line := line,
          threadGroups := threadGroups, times := times,
          originalLocation := originalLocation } = true
      ↔ number ≠ -1 := by
  simp [Breakpoint.isValid]

/-- C2: a `Frame` is valid exactly when its `level` differs from `-1`, whatever
`func`, `addr`, `params`, `file`, `fullpath` and `line` hold. -/
theorem frame_isValid_iff (level : Int) (func : String) (addr : Nat)
    (params : List (String × String)) (file fullpath : String) (line : Int) :
    Frame.isValid
        { level := level, func := func, addr := addr, params := params, file := file,
          fullpath := fullpath, line := line } = true
      ↔ level ≠ -1 := by
  simp [Frame.isValid]

/-- C3: a `Variable` is valid exactly when `name` and `value` are both non-empty;
the member `type` has no influence: validity is unchanged when `type` is replaced,
an empty `type` with non-empty `name` and `value` is valid, and a non-empty `type`
does not make a variable with an empty `name` or an empty `value` valid. -/
theorem variable_isValid_iff (name type value : String) :
    (Variable.isValid { name := name, type := type, value := value } = true
        ↔ name ≠ "" ∧ value ≠ "")
      ∧ (∀ type2 : String,
          Variable.isValid { name := name, type := type2, value := value }
            = Variable.isValid { name := name, type := type, value := value })
      ∧ (name ≠ "" ∧ value ≠ "" →
          Variable.isValid { name := name, type := "", value := value } = true)
      ∧ (type ≠ "" ∧ (name = "" ∨ value = "") →
          Variable.isValid { name := name, type := type, value := value } = false) := by
  have key : ∀ t : String, (Variable.isValid { name := name, type := t, value := value } = true
      ↔ name ≠ "" ∧ value ≠ "") := by
    intro t
    simp [Variable.isValid, isEmpty_eq_false_iff]
  refine ⟨key type, fun _ => rfl, fun h => (key "").2 h, ?_⟩
  rintro ⟨_, h⟩
  rw [← Bool.not_eq_true, key type]
  rcases h with h | h
  · exact fun hh => hh.1 h
  · exact fun hh => hh.2 h

/-- Witness for C3: `x = 1` with an empty `type` is valid, and a variable of
type `int` with an empty `name` is not. -/
theorem variable_isValid_iff_witness :
    Variable.isValid { name := "x", type := "", value := "1" } = true
      ∧ Variable.isValid { name := "", type := "int", value := "1" } = false :=
  ⟨(variable_isValid_iff "x" "int" "1").2.2.1 ⟨by decide, by decide⟩,
   (variable_isValid_iff "" "int" "1").2.2.2 ⟨by decide, Or.inl rfl⟩⟩

end gdb

/-! ## The click handler of `buttonChoseGdbExecutable` -/

theorem findText_eq_neg_one_iff (b : QComboBox) (text : String) :
    b.findText text = -1 ↔ ∀ it ∈ b.items, it.1 ≠ text := by
  unfold QComboBox.findText
  cases h : b.items.findIdx? (fun it => it.1 == text) with
  | none =>
    simp only [true_iff]
    intro it hit
    have := List.findIdx?_eq_none_iff.1 h it hit
    simpa using this
  | some i =>
    have hne : ((i : Nat) : Int) ≠ -1 := by omega
    simp only [hne, false_iff]
    intro hall
    have hsome := List.findIdx?_eq_some_iff_getElem.1 h
    obtain ⟨hi, hp, _⟩ := hsome
    have := hall _ (List.getElem_mem hi)
    simp at hp
    exact this hp

/-- The click handler on a name that is not listed: nothing is inserted and the
selection is cleared. -/
theorem choseGdbExecutableClicked_not_listed (env : Env) (ui : Ui) (name : String)
    (hname : name ≠ "") (hnot : ∀ it ∈ ui.editorGdbExecFile.items, it.1 ≠ name) :
    (choseGdbExecutableClicked env ui name).editorGdbExecFile.items = ui.editorGdbExecFile.items
      ∧ (choseGdbExecutableClicked env ui name).editorGdbExecFile.currentIndex = -1 := by
  have hidx : ui.editorGdbExecFile.findText name = -1 :=
    (findText_eq_neg_one_iff _ _).2 hnot
  have hemp : gdb.isEmpty name = false := (gdb.isEmpty_eq_false_iff name).2 hname
  unfold choseGdbExecutableClicked loadInitScript
  simp only [hemp, hidx]
  simp only [QComboBox.setCurrentIndex]
  split_ifs <;> first | (constructor <;> rfl) | (split <;> constructor <;> rfl) | skip
  all_goals simp_all

/-- C7 (evaluation of the code): with `/usr/bin/gdb` listed and selected, picking
the unlisted `/opt/gdb` inserts nothing and clears the selection (`findText`
returns `-1`, and `!idx` is false for `-1`); picking the already listed
`/usr/bin/gdb`, found at index `0`, inserts a second entry for it. -/
theorem choseGdbExecutableClicked_failing_input :
    ((choseGdbExecutableClicked sampleEnv (sampleUi ["/usr/bin/gdb"] 0)
          "/opt/gdb").editorGdbExecFile.items.map Prod.fst = ["/usr/bin/gdb"]
        ∧ (choseGdbExecutableClicked sampleEnv (sampleUi ["/usr/bin/gdb"] 0)
          "/opt/gdb").editorGdbExecFile.currentIndex = -1
        ∧ (choseGdbExecutableClicked sampleEnv (sampleUi ["/usr/bin/gdb"] 0)
          "/opt/gdb").editorGdbExecFile.currentText = "")
      ∧ ((choseGdbExecutableClicked sampleEnv (sampleUi ["/usr/bin/gdb"] 0)
          "/usr/bin/gdb").editorGdbExecFile.items.map Prod.fst
            = ["/usr/bin/gdb", "/usr/bin/gdb"]
        ∧ (choseGdbExecutableClicked sampleEnv (sampleUi ["/usr/bin/gdb"] 0)
          "/usr/bin/gdb").editorGdbExecFile.currentIndex = 0) := by
  refine ⟨⟨?_, ?_, ?_⟩, ?_, ?_⟩ <;> decide

/-! ## `detectGdbFor` -/

theorem detectLoop_items (env : Env) (pattern : String) (b : QComboBox) (i : Nat) :
    (detectLoop env pattern b i).items = b.items := by
  generalize h : b.items.length - i = n
  induction n generalizing i with
  | zero =>
    unfold detectLoop
    have : ¬ ((i : Int) < b.count) := by simp only [QComboBox.count]; omega
    simp [this]
  | succ n ih =>
    unfold detectLoop
    have h1 : (i : Int) < b.count := by simp only [QComboBox.count]; omega
    simp only [h1, if_true]
    cases hm : env.hasMatch pattern (baseName (b.itemText i)) with
    | true =>
      simp only [if_true, QComboBox.setCurrentIndex]
      split_ifs <;> rfl
    | false =>
      simp only [Bool.false_eq_true, if_false]
      exact ih (i + 1) (by omega)

/-- No match from `i` on: the loop leaves the box as it is. -/
theorem detectLoop_none (env : Env) (pattern : String) (b : QComboBox) (i : Nat)
    (hno : ∀ k : Nat, i ≤ k → k < b.items.length →
      env.hasMatch pattern (baseName (b.itemText k)) = false) :
    detectLoop env pattern b i = b := by
  generalize h : b.items.length - i = n
  induction n generalizing i with
  | zero =>
    unfold detectLoop
    have : ¬ ((i : Int) < b.count) := by simp only [QComboBox.count]; omega
    simp [this]
  | succ n ih =>
    unfold detectLoop
    have hi : i < b.items.length := by omega
    have h1 : (i : Int) < b.count := by simp only [QComboBox.count]; omega
    simp only [h1, if_true, hno i (Nat.le_refl i) hi]
    exact ih (i + 1) (fun k hk hkl => hno k (by omega) hkl) (by omega)

/-- First match at `k ≥ i`: the loop selects `k`. -/
theorem detectLoop_first (env : Env) (pattern : String) (b : QComboBox) (i k : Nat)
    (hik : i ≤ k) (hk : k < b.items.length)
    (hmatch : env.hasMatch pattern (baseName (b.itemText k)) = true)
    (hno : ∀ j : Nat, i ≤ j → j < k →
      env.hasMatch pattern (baseName (b.itemText j)) = false) :
    detectLoop env pattern b i = b.setCurrentIndex k := by
  generalize h : k - i = n
  induction n generalizing i with
  | zero =>
    have hie : i = k := by omega
    subst hie
    unfold detectLoop
    have h1 : (i : Int) < b.count := by simp only [QComboBox.count]; omega
    simp [h1, hmatch]
  | succ n ih =>
    unfold detectLoop
    have h1 : (i : Int) < b.count := by simp only [QComboBox.count]; omega
    simp only [h1, if_true, hno i (Nat.le_refl i) (by omega)]
    exact ih (i + 1) (by omega) (fun j hj hjk => hno j (by omega) hjk) (by omega)

theorem itemText_setCurrentIndex (b : QComboBox) (c i : Int) :
    (b.setCurrentIndex c).itemText i = b.itemText i := by
  unfold QComboBox.setCurrentIndex QComboBox.itemText
  split_ifs <;> rfl

theorem currentIndex_setCurrentIndex (b : QComboBox) (i : Nat) (hi : i < b.items.length) :
    (b.setCurrentIndex i).currentIndex = i := by
  have hlt : (i : Int) < b.count := by simp only [QComboBox.count]; omega
  have h0 : (0 : Int) ≤ i := by omega
  simp [QComboBox.setCurrentIndex, hlt, h0]

theorem setCurrentIndex_forget (b : QComboBox) (c i : Int) :
    ({ b with currentIndex := c } : QComboBox).setCurrentIndex i = b.setCurrentIndex i := by
  unfold QComboBox.setCurrentIndex QComboBox.count
  split_ifs <;> rfl

/-- C8: `detectGdbFor(idx)` leaves the list of gdb executables as it was and makes
current the lowest index whose base name matches the template's `preferredGdb`
pattern; the current index is `-1` exactly when no listed base name matches; and
the whole resulting dialog state is the same whatever index was current before. -/
theorem detectGdbFor_selects_first_match (env : Env) (ui : Ui) (idx : Int) :
    (detectGdbFor env ui idx).editorGdbExecFile.items = ui.editorGdbExecFile.items
      ∧ (∀ i : Nat, i < ui.editorGdbExecFile.items.length →
          env.hasMatch (preferredGdbPattern env ui idx)
            (baseName (ui.editorGdbExecFile.itemText i)) = true →
          (∀ j : Nat, j < i →
            env.hasMatch (preferredGdbPattern env ui idx)
              (baseName (ui.editorGdbExecFile.itemText j)) = false) →
          (detectGdbFor env ui idx).editorGdbExecFile.currentIndex = i)
      ∧ ((detectGdbFor env ui idx).editorGdbExecFile.currentIndex = -1 ↔
          ∀ i : Nat, i < ui.editorGdbExecFile.items.length →
            env.hasMatch (preferredGdbPattern env ui idx)
              (baseName (ui.editorGdbExecFile.itemText i)) = false)
      ∧ (∀ c : Int,
          detectGdbFor env
              { ui with editorGdbExecFile := { ui.editorGdbExecFile with currentIndex := c } } idx
            = detectGdbFor env ui idx) := by
  have hitems : (ui.editorGdbExecFile.setCurrentIndex (-1)).items = ui.editorGdbExecFile.items := by
    simp [QComboBox.setCurrentIndex]
  have hcur : (ui.editorGdbExecFile.setCurrentIndex (-1)).currentIndex = -1 := by
    simp [QComboBox.setCurrentIndex]
  have hfirst : ∀ i : Nat, i < ui.editorGdbExecFile.items.length →
      env.hasMatch (preferredGdbPattern env ui idx)
        (baseName (ui.editorGdbExecFile.itemText i)) = true →
      (∀ j : Nat, j < i →
        env.hasMatch (preferredGdbPattern env ui idx)
          (baseName (ui.editorGdbExecFile.itemText j)) = false) →
      (detectGdbFor env ui idx).editorGdbExecFile.currentIndex = i := by
    intro i hi hm hno
    have := detectLoop_first env (preferredGdbPattern env ui idx)
      (ui.editorGdbExecFile.setCurrentIndex (-1)) 0 i (Nat.zero_le i) (by rw [hitems]; exact hi)
      (by rw [itemText_setCurrentIndex]; exact hm)
      (fun j _ hj => by rw [itemText_setCurrentIndex]; exact hno j hj)
    show (detectLoop env (preferredGdbPattern env ui idx)
      (ui.editorGdbExecFile.setCurrentIndex (-1)) 0).currentIndex = i
    rw [this]
    exact currentIndex_setCurrentIndex _ i (by rw [hitems]; exact hi)
  refine ⟨?_, hfirst, ⟨?_, ?_⟩, ?_⟩
  · show (detectLoop env _ (ui.editorGdbExecFile.setCurrentIndex (-1)) 0).items = _
    rw [detectLoop_items, hitems]
  · intro hneg
    by_contra hex
    push_neg at hex
    have hex2 : ∃ i : Nat, i < ui.editorGdbExecFile.items.length ∧
        env.hasMatch (preferredGdbPattern env ui idx)
          (baseName (ui.editorGdbExecFile.itemText i)) = true := by
      obtain ⟨i, hi, hm⟩ := hex
      exact ⟨i, hi, by simpa using hm⟩
    have hmin := Nat.find_spec hex2
    have hlow : ∀ j : Nat, j < Nat.find hex2 →
        env.hasMatch (preferredGdbPattern env ui idx)
          (baseName (ui.editorGdbExecFile.itemText j)) = false := by
      intro j hj
      have hnot := Nat.find_min hex2 hj
      have hjl : j < ui.editorGdbExecFile.items.length := lt_trans hj hmin.1
      simpa [hjl] using hnot
    have := hfirst (Nat.find hex2) hmin.1 hmin.2 hlow
    rw [this] at hneg
    omega
  · intro hno
    show (detectLoop env (preferredGdbPattern env ui idx)
      (ui.editorGdbExecFile.setCurrentIndex (-1)) 0).currentIndex = -1
    rw [detectLoop_none env _ _ 0
      (fun k _ hk => by
        rw [itemText_setCurrentIndex]
        exact hno k (by rw [hitems] at hk; exact hk))]
    exact hcur
  · intro c
    unfold detectGdbFor
    simp only [setCurrentIndex_forget]

/-- Witness for C8: the template prefers `arm-gdb`; of the executables
`/usr/bin/gdb`, `/opt/arm-gdb.exe`, `/usr/bin/arm-gdb` the second is the first
whose base name matches, so index `1` is selected, starting from index `2`. -/
theorem detectGdbFor_selects_first_match_witness :
    (detectGdbFor sampleEnv
        { sampleUi ["/usr/bin/gdb", "/opt/arm-gdb.exe", "/usr/bin/arm-gdb"] 2 with
          comboGdbInitTemplates :=
            { items := [("arm", QJsonValue.object [("preferredGdb", QJsonValue.string "arm-gdb")])]
              currentIndex := 0 } }
        0).editorGdbExecFile.currentIndex = (1 : Nat) :=
  (detectGdbFor_selects_first_match sampleEnv
      { sampleUi ["/usr/bin/gdb", "/opt/arm-gdb.exe", "/usr/bin/arm-gdb"] 2 with
        comboGdbInitTemplates :=
          { items := [("arm", QJsonValue.object [("preferredGdb", QJsonValue.string "arm-gdb")])]
            currentIndex := 0 } }
      0).2.1 1 (by decide) (by decide) (by decide)

/-! ## Template loading -/

theorem addItem_items (b : QComboBox) (text : String) (userData : QJsonValue) :
    (b.addItem text userData).items = b.items ++ [(text, userData)] := by
  simp [QComboBox.addItem, QComboBox.insertItem, QComboBox.count]

theorem toBool_false_eq_true_iff (v : QJsonValue) :
    v.toBool false = true ↔ v = QJsonValue.bool true := by
  cases v <;> simp [QJsonValue.toBool]

theorem processObject_items (b : QComboBox) (j : QJsonObject) :
    (processObject b j).1.items = b.items ++ [itemOf j] := by
  unfold processObject
  split_ifs <;> exact addItem_items _ _ _

theorem processObject_result (b : QComboBox) (j : QJsonObject) :
    (processObject b j).2 = (j.value "default").toBool false := by
  unfold processObject
  split_ifs with h
  · exact h.symm
  · simpa using h

theorem loadObject_items (st : QComboBox × Int) (j : QJsonObject) :
    (loadObject st j).1.items = st.1.items ++ [itemOf j] := by
  simp only [loadObject]
  split_ifs <;> exact processObject_items _ _

theorem loadObject_defaultIdx (st : QComboBox × Int) (j : QJsonObject) :
    (loadObject st j).2
      = if (j.value "default").toBool false = true then (st.1.items.length : Int) else st.2 := by
  simp only [loadObject, processObject_result]
  split_ifs
  · simp [QComboBox.count, processObject_items]
  · rfl

theorem loadFile_eq_foldl (st : QComboBox × Int) (file : Option QJsonDocument) :
    loadFile st file = (objectsOf file).foldl loadObject st := by
  unfold loadFile objectsOf
  cases file with
  | none => rfl
  | some doc =>
    cases doc with
    | object o => rfl
    | array a => simp [List.foldl_map]
    | null => rfl

theorem loadTemplates_eq_foldl (b : QComboBox) (templateList : List (Option QJsonDocument)) :
    loadTemplates b templateList = (allObjects templateList).foldl loadObject (b, 0) := by
  unfold loadTemplates allObjects
  rw [List.foldl_flatten, List.foldl_map]
  congr 1
  funext st file
  exact loadFile_eq_foldl st file

/-- Items and `defaultIdx` after running the loop body over `objs` from an empty box. -/
theorem foldl_loadObject_spec (objs : List QJsonObject) :
    (objs.foldl loadObject (QComboBox.empty, 0)).1.items = objs.map itemOf
      ∧ (∀ (i : Nat) (j : QJsonObject), objs[i]? = some j →
          j.value "default" = QJsonValue.bool true →
          (∀ (k : Nat) (j2 : QJsonObject), i < k → objs[k]? = some j2 →
            j2.value "default" ≠ QJsonValue.bool true) →
          (objs.foldl loadObject (QComboBox.empty, 0)).2 = i)
      ∧ ((∀ j ∈ objs, j.value "default" ≠ QJsonValue.bool true) →
          (objs.foldl loadObject (QComboBox.empty, 0)).2 = 0) := by
  induction objs using List.reverseRecOn with
  | nil =>
    refine ⟨rfl, ?_, fun _ => rfl⟩
    intro i j hj
    simp at hj
  | append_singleton objs x ih =>
    obtain ⟨ihItems, ihLast, ihNone⟩ := ih
    have hlen : (objs.foldl loadObject (QComboBox.empty, 0)).1.items.length = objs.length := by
      rw [ihItems, List.length_map]
    rw [List.foldl_append, List.foldl_cons, List.foldl_nil]
    refine ⟨?_, ?_, ?_⟩
    · rw [loadObject_items, ihItems, List.map_append, List.map_cons, List.map_nil]
    · intro i j hj hdef hlater
      rw [loadObject_defaultIdx, hlen]
      by_cases hx : (x.value "default").toBool false = true
      · rw [if_pos hx]
        by_cases hi : i < objs.length
        · exfalso
          exact hlater objs.length x hi (by simp) ((toBool_false_eq_true_iff _).1 hx)
        · have hle : objs.length ≤ i := Nat.le_of_not_lt hi
          rw [List.getElem?_append_right hle] at hj
          have : i - objs.length = 0 := by
            by_contra hne
            have h1 : 1 ≤ i - objs.length := by omega
            rw [List.getElem?_eq_none (by simpa using h1)] at hj
            exact Option.noConfusion hj
          have : i = objs.length := by omega
          rw [this]
      · rw [if_neg hx]
        have hi : i < objs.length := by
          by_contra hi
          have hle : objs.length ≤ i := Nat.le_of_not_lt hi
          rw [List.getElem?_append_right hle] at hj
          cases hsub : i - objs.length with
          | zero =>
            rw [hsub] at hj
            simp at hj
            subst hj
            exact hx ((toBool_false_eq_true_iff _).2 hdef)
          | succ m =>
            rw [hsub] at hj
            simp at hj
        rw [List.getElem?_append_left hi] at hj
        apply ihLast i j hj hdef
        intro k j2 hik hk
        have hkl : k < objs.length := by
          by_contra hkl
          rw [List.getElem?_eq_none (Nat.le_of_not_lt hkl)] at hk
          exact Option.noConfusion hk
        exact hlater k j2 hik (by rw [List.getElem?_append_left hkl]; exact hk)
    · intro hnone
      rw [loadObject_defaultIdx]
      have hx : ¬ (x.value "default").toBool false = true := fun h =>
        hnone x (by simp) ((toBool_false_eq_true_iff _).1 h)
      rw [if_neg hx]
      exact ihNone (fun j hj => hnone j (by simp [hj]))

/-- C9: `processObject` appends exactly one item (the object's `"name"` as text,
the object as data) and returns true exactly when the object's `"default"` member
is the boolean `true`; after the loading loop on an initially empty template combo
box the items are, in order, one per JSON object of the files (a top-level object,
or each element of a top-level array); `defaultIdx` is the index of the last
object whose `"default"` member is the boolean `true`, and `0` when there is none. -/
theorem loadTemplates_items_and_defaultIdx (templateList : List (Option QJsonDocument)) :
    (∀ (b : QComboBox) (j : QJsonObject),
        (processObject b j).1.items
            = b.items ++ [((j.value "name").toString, QJsonValue.object j)]
          ∧ ((processObject b j).2 = true ↔ j.value "default" = QJsonValue.bool true))
      ∧ (loadTemplates QComboBox.empty templateList).1.items
          = (allObjects templateList).map
              (fun (j : QJsonObject) => ((j.value "name").toString, QJsonValue.object j))
      ∧ (∀ (i : Nat) (j : QJsonObject), (allObjects templateList)[i]? = some j →
          j.value "default" = QJsonValue.bool true →
          (∀ (k : Nat) (j2 : QJsonObject), i < k → (allObjects templateList)[k]? = some j2 →
            j2.value "default" ≠ QJsonValue.bool true) →
          (loadTemplates QComboBox.empty templateList).2 = i)
      ∧ ((∀ j ∈ allObjects templateList, j.value "default" ≠ QJsonValue.bool true) →
          (loadTemplates QComboBox.empty templateList).2 = 0) := by
  rw [loadTemplates_eq_foldl]
  refine ⟨fun b j => ⟨processObject_items b j, ?_⟩, foldl_loadObject_spec _⟩
  rw [processObject_result]
  exact toBool_false_eq_true_iff _

/-- Witness for C9: of the four objects `A`, `B`, `{}`, `C` loaded from
`sampleTemplates` only `B` has `"default": true`, so `defaultIdx = 1`; with the
single object `A` nothing is a default and `defaultIdx = 0`. -/
theorem loadTemplates_items_and_defaultIdx_witness :
    (loadTemplates QComboBox.empty sampleTemplates).2 = (1 : Nat)
      ∧ (loadTemplates QComboBox.empty
          [some (QJsonDocument.object [("name", QJsonValue.string "A")])]).2 = 0 :=
  ⟨(loadTemplates_items_and_defaultIdx sampleTemplates).2.2.1 1
      [("name", QJsonValue.string "B"), ("default", QJsonValue.bool true)] rfl rfl
      (fun k j2 hk hj2 => by
        match k, hk, hj2 with
        | 2, _, h =>
          simp [allObjects, objectsOf, sampleTemplates, QJsonValue.toObject] at h
          subst h
          simp [QJsonObject.value, List.lookup]
        | 3, _, h =>
          simp [allObjects, objectsOf, sampleTemplates, QJsonValue.toObject] at h
          subst h
          simp [QJsonObject.value, List.lookup]
        | k + 4, _, h =>
          simp [allObjects, objectsOf, sampleTemplates, QJsonValue.toObject] at h),
   (loadTemplates_items_and_defaultIdx
      [some (QJsonDocument.object [("name", QJsonValue.string "A")])]).2.2.2
      (fun j hj => by
        simp [allObjects, objectsOf] at hj
        subst hj
        simp [QJsonObject.value, List.lookup])⟩

namespace DebugManager

/-! ## Retention of tracked handlers -/

theorem lookup_filter_ne {V : Type} (c : Correlator V) (token : Int) :
    (c.pending.filter (fun x => x.token != token)).find? (fun e => e.token == token) = none := by
  rw [List.find?_eq_none]
  intro x hx
  have := (List.mem_filter.1 hx).2
  simpa using this

theorem lookup_commandAndResponse {V : Type} (c : Correlator V) (cmd : String) (handler : Nat)
    (action : Option ResponseAction_t) :
    (commandAndResponse c cmd handler action).lookup c.nextToken
      = some { token := c.nextToken, handler := handler,
               retention := action.getD ResponseAction_t.Temporal } := by
  simp [commandAndResponse, Correlator.lookup]

theorem onResult_temporal {V : Type} (c : Correlator V) (token : Int) (handler : Nat)
    (payload : V)
    (h : c.lookup token = some { token := token, handler := handler,
                                 retention := ResponseAction_t.Temporal }) :
    (onResult c token payload).invoked = c.invoked ++ [(handler, payload)]
      ∧ (onResult c token payload).lookup token = none := by
  constructor
  · simp [onResult, h]
  · unfold onResult
    rw [h]
    exact lookup_filter_ne c token

theorem onResult_permanent {V : Type} (c : Correlator V) (token : Int) (handler : Nat)
    (payload : V)
    (h : c.lookup token = some { token := token, handler := handler,
                                 retention := ResponseAction_t.Permanent }) :
    (onResult c token payload).invoked = c.invoked ++ [(handler, payload)]
      ∧ (onResult c token payload).lookup token
          = some { token := token, handler := handler,
                   retention := ResponseAction_t.Permanent } := by
  constructor
  · simp [onResult, h]
  · unfold onResult
    rw [h]
    exact h

theorem onResult_absent {V : Type} (c : Correlator V) (token : Int) (payload : V)
    (h : c.lookup token = none) : onResult c token payload = c := by
  simp [onResult, h]

theorem foldl_onResult_permanent {V : Type} (payloads : List V) (c : Correlator V)
    (token : Int) (handler : Nat)
    (h : c.lookup token = some { token := token, handler := handler,
                                 retention := ResponseAction_t.Permanent }) :
    (payloads.foldl (fun st p => onResult st token p) c).invoked
        = c.invoked ++ payloads.map (fun p => (handler, p))
      ∧ (payloads.foldl (fun st p => onResult st token p) c).lookup token
          = some { token := token, handler := handler,
                   retention := ResponseAction_t.Permanent } := by
  induction payloads generalizing c with
  | nil => simp [h]
  | cons p ps ih =>
    obtain ⟨h1, h2⟩ := onResult_permanent c token handler p h
    obtain ⟨h3, h4⟩ := ih (onResult c token p) h2
    refine ⟨?_, h4⟩
    rw [List.foldl_cons, h3, h1]
    simp

/-- C6: a handler registered through `commandAndResponse` is pending under the
allocated token with the retention given, `Temporal` when none is given. When a
`Result` record arrives whose token has a pending `Temporal` entry, exactly one
invocation of its handler (with the record's payload) is added, the entry is
absent afterwards, and a further record with that token invokes nothing. When the
entry is `Permanent`, every one of any number of matching records adds one
invocation of the handler, in order, and the entry is still present afterwards. -/
theorem handler_retention {V : Type} (c : Correlator V) (token : Int) (handler : Nat) :
    (∀ cmd : String,
        (commandAndResponse c cmd handler none).lookup c.nextToken
          = some { token := c.nextToken, handler := handler,
                   retention := ResponseAction_t.Temporal })
      ∧ (∀ (cmd : String) (action : ResponseAction_t),
        (commandAndResponse c cmd handler (some action)).lookup c.nextToken
          = some { token := c.nextToken, handler := handler, retention := action })
      ∧ (c.lookup token = some { token := token, handler := handler,
                                 retention := ResponseAction_t.Temporal } →
          ∀ payload : V,
            (onResult c token payload).invoked = c.invoked ++ [(handler, payload)]
              ∧ (onResult c token payload).lookup token = none
              ∧ ∀ payload2 : V,
                  onResult (onResult c token payload) token payload2
                    = onResult c token payload)
      ∧ (c.lookup token = some { token := token, handler := handler,
                                 retention := ResponseAction_t.Permanent } →
          ∀ payloads : List V,
            (payloads.foldl (fun st p => onResult st token p) c).invoked
                = c.invoked ++ payloads.map (fun p => (handler, p))
              ∧ (payloads.foldl (fun st p => onResult st token p) c).lookup token
                  = some { token := token, handler := handler,
                           retention := ResponseAction_t.Permanent }) := by
  refine ⟨fun cmd => lookup_commandAndResponse c cmd handler none,
    fun cmd action => lookup_commandAndResponse c cmd handler (some action), ?_, ?_⟩
  · intro h payload
    obtain ⟨h1, h2⟩ := onResult_temporal c token handler payload h
    exact ⟨h1, h2, fun payload2 => onResult_absent _ token payload2 h2⟩
  · intro h payloads
    exact foldl_onResult_permanent payloads c token handler h

/-- Witness for C6: handler `1` registered without a retention fires once on the
first `Result` with token `7` and is gone; handler `2` registered `Permanent`
fires on each of three matching records. -/
theorem handler_retention_witness :
    (∀ payload : String,
        (onResult (commandAndResponse sampleCorrelator "-break-insert main" 1 none)
            7 payload).invoked = [] ++ [(1, payload)]
          ∧ (onResult (commandAndResponse sampleCorrelator "-break-insert main" 1 none)
              7 payload).lookup 7 = none
          ∧ ∀ payload2 : String,
              onResult (onResult
                  (commandAndResponse sampleCorrelator "-break-insert main" 1 none)
                  7 payload) 7 payload2
                = onResult (commandAndResponse sampleCorrelator "-break-insert main" 1 none)
                    7 payload)
      ∧ ((["a", "b", "c"].foldl (fun st p => onResult st 7 p)
            (commandAndResponse sampleCorrelator "-thread-info" 2
              (some ResponseAction_t.Permanent))).invoked
          = [] ++ ["a", "b", "c"].map (fun p => (2, p))
        ∧ (["a", "b", "c"].foldl (fun st p => onResult st 7 p)
            (commandAndResponse sampleCorrelator "-thread-info" 2
              (some ResponseAction_t.Permanent))).lookup 7
          = some { token := 7, handler := 2, retention := ResponseAction_t.Permanent }) :=
  ⟨(handler_retention (commandAndResponse sampleCorrelator "-break-insert main" 1 none)
      7 1).2.2.1 (by decide),
   (handler_retention (commandAndResponse sampleCorrelator "-thread-info" 2
      (some ResponseAction_t.Permanent)) 7 2).2.2.2 (by decide) ["a", "b", "c"]⟩

end DebugManager

namespace gdb

/-! ## Defaults of missing fields -/

theorem stringField_missing (data : List (String × Value)) (key : String)
    (h : field data key = none) : stringField data key = "" := by
  simp [stringField, h]

theorem intField_missing (cv : Conv) (data : List (String × Value)) (key : String)
    (h : field data key = none) : intField cv data key = -1 := by
  simp [intField, h]

theorem boolField_missing (cv : Conv) (data : List (String × Value)) (key : String)
    (h : field data key = none) : boolField cv data key = false := by
  simp [boolField, h]

/-- C5: in each projection built from a tuple, an optional field that is missing
from the tuple takes its default: every string member of `Variable`, `Frame`,
`Breakpoint` and `Thread` is the empty string, the integer members `Frame.line`,
`Breakpoint.line`, `Breakpoint.times` and `Thread.core` are `-1`, and
`Breakpoint.enable` is `false`; this holds whatever the other fields of the tuple
are and however present fields are converted. -/
theorem parseMap_missing_defaults (cv : Conv) (data : List (String × Value)) :
    ((field data "name" = none → (Variable.parseMap data).name = "")
        ∧ (field data "type" = none → (Variable.parseMap data).type = "")
        ∧ (field data "value" = none → (Variable.parseMap data).value = ""))
      ∧ ((field data "func" = none → (Frame.parseMap cv data).func = "")
        ∧ (field data "file" = none → (Frame.parseMap cv data).file = "")
        ∧ (field data "fullname" = none → (Frame.parseMap cv data).fullpath = "")
        ∧ (field data "line" = none → (Frame.parseMap cv data).line = -1))
      ∧ ((field data "type" = none → (Breakpoint.parseMap cv data).type = "")
        ∧ (field data "func" = none → (Breakpoint.parseMap cv data).func = "")
        ∧ (field data "file" = none → (Breakpoint.parseMap cv data).file = "")
        ∧ (field data "fullname" = none → (Breakpoint.parseMap cv data).fullname = "")
        ∧ (field data "original-location" = none →
            (Breakpoint.parseMap cv data).originalLocation = "")
        ∧ (field data "line" = none → (Breakpoint.parseMap cv data).line = -1)
        ∧ (field data "times" = none → (Breakpoint.parseMap cv data).times = -1)
        ∧ (field data "enabled" = none → (Breakpoint.parseMap cv data).enable = false))
      ∧ ((field data "target-id" = none → (Thread.parseMap cv data).targetId = "")
        ∧ (field data "details" = none → (Thread.parseMap cv data).details = "")
        ∧ (field data "name" = none → (Thread.parseMap cv data).name = "")
        ∧ (field data "core" = none → (Thread.parseMap cv data).core = -1)) := by
  refine ⟨⟨?_, ?_, ?_⟩, ⟨?_, ?_, ?_, ?_⟩, ⟨?_, ?_, ?_, ?_, ?_, ?_, ?_, ?_⟩, ⟨?_, ?_, ?_, ?_⟩⟩
  all_goals
    intro h
    first
      | exact stringField_missing data _ h
      | exact intField_missing cv data _ h
      | exact boolField_missing cv data _ h

/-- Witness for C5 on `sampleTuple`, where every optional field except `func` is
missing. -/
theorem parseMap_missing_defaults_witness :
    ((Variable.parseMap sampleTuple).name = ""
        ∧ (Variable.parseMap sampleTuple).type = ""
        ∧ (Variable.parseMap sampleTuple).value = "")
      ∧ ((Frame.parseMap sampleConv sampleTuple).file = ""
        ∧ (Frame.parseMap sampleConv sampleTuple).fullpath = ""
        ∧ (Frame.parseMap sampleConv sampleTuple).line = -1)
      ∧ ((Breakpoint.parseMap sampleConv sampleTuple).type = ""
        ∧ (Breakpoint.parseMap sampleConv sampleTuple).file = ""
        ∧ (Breakpoint.parseMap sampleConv sampleTuple).fullname = ""
        ∧ (Breakpoint.parseMap sampleConv sampleTuple).originalLocation = ""
        ∧ (Breakpoint.parseMap sampleConv sampleTuple).line = -1
        ∧ (Breakpoint.parseMap sampleConv sampleTuple).times = -1
        ∧ (Breakpoint.parseMap sampleConv sampleTuple).enable = false)
      ∧ ((Thread.parseMap sampleConv sampleTuple).targetId = ""
        ∧ (Thread.parseMap sampleConv sampleTuple).details = ""
        ∧ (Thread.parseMap sampleConv sampleTuple).name = ""
        ∧ (Thread.parseMap sampleConv sampleTuple).core = -1) :=
  ⟨⟨(parseMap_missing_defaults sampleConv sampleTuple).1.1 rfl,
    (parseMap_missing_defaults sampleConv sampleTuple).1.2.1 rfl,
    (parseMap_missing_defaults sampleConv sampleTuple).1.2.2 rfl⟩,
   ⟨(parseMap_missing_defaults sampleConv sampleTuple).2.1.2.1 rfl,
    (parseMap_missing_defaults sampleConv sampleTuple).2.1.2.2.1 rfl,
    (parseMap_missing_defaults sampleConv sampleTuple).2.1.2.2.2 rfl⟩,
   ⟨(parseMap_missing_defaults sampleConv sampleTuple).2.2.1.1 rfl,
    (parseMap_missing_defaults sampleConv sampleTuple).2.2.1.2.2.1 rfl,
    (parseMap_missing_defaults sampleConv sampleTuple).2.2.1.2.2.2.1 rfl,
    (parseMap_missing_defaults sampleConv sampleTuple).2.2.1.2.2.2.2.1 rfl,
    (parseMap_missing_defaults sampleConv sampleTuple).2.2.1.2.2.2.2.2.1 rfl,
    (parseMap_missing_defaults sampleConv sampleTuple).2.2.1.2.2.2.2.2.2.1 rfl,
    (parseMap_missing_defaults sampleConv sampleTuple).2.2.1.2.2.2.2.2.2.2 rfl⟩,
   ⟨(parseMap_missing_defaults sampleConv sampleTuple).2.2.2.1 rfl,
    (parseMap_missing_defaults sampleConv sampleTuple).2.2.2.2.1 rfl,
    (parseMap_missing_defaults sampleConv sampleTuple).2.2.2.2.2.1 rfl,
    (parseMap_missing_defaults sampleConv sampleTuple).2.2.2.2.2.2 rfl⟩⟩

end gdb
